import Mathlib

/-!
Shallow embedding of the synthetic-data generation and fraud-detection core of
the `gta-warehouse-demo` repository (Python), together with theorems settling
the specification claims about it.

Conventions of the embedding:
* Python `random.*` / `np.random.*` draws are passed in explicitly as draw
  records (one record per entity/period); each draw record has a `Wf`
  predicate stating the ranges the corresponding Python call guarantees
  (`random.randint(a, b)` inclusive, `random.uniform(a, b)` inclusive, ...).
* Monetary amounts and scores are rationals (`ℚ`); dates are day numbers (`ℤ`).
* Python `round(x, 2)` (round-half-to-even at two decimals) is `round2`.
* `None`-able columns are `Option`s; a Python `TypeError` raised by comparing
  `None` with a number is the `.error` branch of an `Except`.
-/

namespace GTA

/-- Taxpayer type drawn in `generate_taxpayers`
(`random.choices(['Individual', 'Corporate', 'Partnership', 'NGO'], ...)`). -/
inductive TaxpayerType
  | Individual
  | Corporate
  | Partnership
  | NGO
deriving DecidableEq

/-- Risk-category labels stored in the `risk_category` column.  Generation
only produces `Low`/`Medium`/`High`; `score_all_taxpayers` can also write
`Critical` (the fourth `pd.cut` band). -/
inductive RiskLabel
  | Low
  | Medium
  | High
  | Critical
deriving DecidableEq

/-- Status of a PAYE or VAT return. -/
inductive ReturnStatus
  | Filed
  | Overdue
deriving DecidableEq

/-- Status of a fraud alert. -/
inductive AlertStatus
  | Open
  | UnderInvestigation
  | Closed
deriving DecidableEq

/-- Payment channels appearing in the two generators. -/
inductive Channel
  | BankTransfer
  | MobileMoney
  | Online
  | Cash
  | Cheque
deriving DecidableEq

/-- A Gambian TIN `XXX-XXXXXX-X`: the three random integer components drawn by
`generate_tin` (`random.randint(100, 999)`, `random.randint(100000, 999999)`,
`random.randint(1, 9)`). -/
structure TIN where
  a : ℕ
  b : ℕ
  c : ℕ
deriving DecidableEq

/-- The taxpayer record produced by `GambianTaxDataGenerator.generate_taxpayers`
(only the columns the claims mention).  `tin` is an `Option` because the SQL
quality check treats the column as nullable; the generator always fills it.
`isFraud` models membership of the taxpayer's id in `self.fraud_taxpayers`. -/
structure Taxpayer where
  id : ℕ
  tin : Option TIN
  ttype : TaxpayerType
  employeeCount : Option ℕ
  annualTurnover : Option ℚ
  riskCategory : Option RiskLabel
  complianceScore : ℚ
  isFraud : Bool
deriving DecidableEq

/-- The random draws consumed for one taxpayer in
`GambianTaxDataGenerator.generate_taxpayers`. -/
structure TpDraw where
  ttype : TaxpayerType
  fraudRoll : Bool
  tinA : ℕ
  tinB : ℕ
  tinC : ℕ
  employeeDraw : ℕ
  turnoverDraw : ℚ
  riskChoice : RiskLabel
  complianceDraw : ℚ
deriving DecidableEq

/-- Ranges guaranteed by the Python draw calls in `generate_taxpayers`:
`fraudRoll` is `random.random() < 0.075`; the TIN parts are `randint`s;
`employeeDraw` is `randint(1, 500)`; `turnoverDraw` is
`randint(100000, 50000000)`; `riskChoice` is
`random.choices(['Low', 'Medium', 'High'], ...)`; `complianceDraw` is
`uniform(0.2, 0.5)` for fraud cases and `uniform(0.6, 0.95)` otherwise. -/
def TpDraw.Wf (d : TpDraw) : Prop :=
  100 ≤ d.tinA ∧ d.tinA ≤ 999 ∧
  100000 ≤ d.tinB ∧ d.tinB ≤ 999999 ∧
  1 ≤ d.tinC ∧ d.tinC ≤ 9 ∧
  1 ≤ d.employeeDraw ∧ d.employeeDraw ≤ 500 ∧
  100000 ≤ d.turnoverDraw ∧ d.turnoverDraw ≤ 50000000 ∧
  (d.riskChoice = .Low ∨ d.riskChoice = .Medium ∨ d.riskChoice = .High) ∧
  (if d.fraudRoll then 2/10 ≤ d.complianceDraw ∧ d.complianceDraw ≤ 5/10
   else 6/10 ≤ d.complianceDraw ∧ d.complianceDraw ≤ 95/100)

/-- `GambianTaxDataGenerator.generate_tin`: three independent random draws,
no uniqueness bookkeeping. -/
def generateTin (d : TpDraw) : TIN :=
  { a := d.tinA, b := d.tinB, c := d.tinC }

/-- Body of the loop in `GambianTaxDataGenerator.generate_taxpayers` for index
`i` (`taxpayer_id = TP{i+1:06d}`): non-Individual taxpayers get employee count
and turnover; fraud cases get `risk_category = High` and a low compliance
draw. -/
def mkSyntheticTaxpayer (i : ℕ) (d : TpDraw) : Taxpayer :=
  let isCorporate := d.ttype ≠ .Individual
  { id := i + 1
    tin := some (generateTin d)
    ttype := d.ttype
    employeeCount := if isCorporate then some d.employeeDraw else none
    annualTurnover := if isCorporate then some d.turnoverDraw else none
    riskCategory := some (if d.fraudRoll then .High else d.riskChoice)
    complianceScore := d.complianceDraw
    isFraud := d.fraudRoll }

/-- `GambianTaxDataGenerator.generate_taxpayers`: one record per index in
`range(num_taxpayers)`, using the draw stream `draws`. -/
def generateTaxpayers (numTaxpayers : ℕ) (draws : ℕ → TpDraw) : List Taxpayer :=
  (List.range numTaxpayers).map (fun i => mkSyntheticTaxpayer i (draws i))

/-- Errors raised by `check_data_quality` in `gta_data_pipeline.py`. -/
inductive QualityError
  | nullIds
  | duplicateTins
deriving DecidableEq

/-- `check_data_quality` (gta_data_pipeline.py): raise if any row has a NULL
`tin` (the `taxpayer_id` column is modelled as non-nullable `ℕ`), then raise
if any TIN value occurs on more than one row, else pass. -/
def checkDataQuality (rows : List Taxpayer) : Except QualityError Unit :=
  if rows.any (fun r => r.tin = none) then .error .nullIds
  else if (rows.map (fun r => r.tin)).Nodup then .ok () else .error .duplicateTins

/-- Python `round` on a number already scaled to an integer position:
round half to even. -/
def roundHalfEven (q : ℚ) : ℤ :=
  let f := ⌊q⌋
  let r := q - (f : ℚ)
  if r < 1/2 then f
  else if 1/2 < r then f + 1
  else if f % 2 = 0 then f else f + 1

/-- Python `round(x, 2)`. -/
def round2 (q : ℚ) : ℚ :=
  (roundHalfEven (q * 100) : ℚ) / 100

/-- A PAYE return record (`generate_paye_returns`).  `returnId` encodes the
string `PAYE{yyyymm}{taxpayer number}` as the pair (period index, taxpayer id);
`filingDate` is the nullable stored column. -/
structure PayeReturn where
  returnId : ℕ × ℕ
  taxpayerId : ℕ
  periodIdx : ℕ
  filingDate : Option ℤ
  dueDate : ℤ
  employeeCount : ℕ
  grossSalaries : ℚ
  payeTax : ℚ
  socialSecurity : ℚ
  totalDeductions : ℚ
  netPayment : ℚ
  status : ReturnStatus
deriving DecidableEq

/-- The random draws consumed for one taxpayer-month in
`generate_paye_returns`.  `seasonal` carries the value of
`1 + 0.2 * sin(month * pi / 6)` for the month (an irrational constant of the
source, passed in here as a rational approximation; no claim depends on it). -/
structure PayeDraw where
  skipRoll : Bool
  empFallback : ℕ
  avgSalary : ℚ
  seasonal : ℚ
  payeRate : ℚ
  fraudFactor : ℚ
  filingOffset : ℤ
deriving DecidableEq

/-- Ranges guaranteed by the Python draws in `generate_paye_returns`:
`skipRoll` is `random.random() < 0.3`; `empFallback` is `randint(5, 100)`;
`avgSalary` is `randint(5000, 50000)`; `seasonal` is in `[0.8, 1.2]`;
`payeRate` is `uniform(0.1, 0.25)`; `fraudFactor` is `uniform(0.5, 0.8)`;
`filingOffset` is `randint(-5, 10)`. -/
def PayeDraw.Wf (d : PayeDraw) : Prop :=
  5 ≤ d.empFallback ∧ d.empFallback ≤ 100 ∧
  5000 ≤ d.avgSalary ∧ d.avgSalary ≤ 50000 ∧
  8/10 ≤ d.seasonal ∧ d.seasonal ≤ 12/10 ∧
  1/10 ≤ d.payeRate ∧ d.payeRate ≤ 25/100 ∧
  5/10 ≤ d.fraudFactor ∧ d.fraudFactor ≤ 8/10 ∧
  -5 ≤ d.filingOffset ∧ d.filingOffset ≤ 10

/-- Body of the period loop of `generate_paye_returns` for one taxpayer and
one month.  `periodIdx` numbers the month, `periodDate` is its start day;
`due_date = current_date + 15 days`;
`filing_date = due_date - timedelta(days=randint(-5, 10))`; the stored
`filing_date` column is NULLed when the drawn date is after `datetime.now()`
(`now`), but `status` is computed from the drawn date:
`'Filed' if filing_date and filing_date <= due_date else 'Overdue'`
(the drawn timestamp is always truthy).  Fraud taxpayers get `paye_tax` and
`gross_salaries` scaled by `fraudFactor` before the derived columns. -/
def mkPayeReturn (tp : Taxpayer) (periodIdx : ℕ) (periodDate : ℤ)
    (d : PayeDraw) (now : ℤ) : PayeReturn :=
  let employeeCount : ℕ := match tp.employeeCount with
    | some n => if n = 0 then d.empFallback else n
    | none => d.empFallback
  let grossSalaries : ℚ := (employeeCount : ℚ) * d.avgSalary * d.seasonal
  let payeTax := grossSalaries * d.payeRate
  let socialSecurity := grossSalaries * (5/100)
  let payeTaxF := if tp.isFraud then payeTax * d.fraudFactor else payeTax
  let grossSalariesF := if tp.isFraud then grossSalaries * d.fraudFactor else grossSalaries
  let dueDate := periodDate + 15
  let filingDate := dueDate - d.filingOffset
  { returnId := (periodIdx, tp.id)
    taxpayerId := tp.id
    periodIdx := periodIdx
    filingDate := if filingDate ≤ now then some filingDate else none
    dueDate := dueDate
    employeeCount := employeeCount
    grossSalaries := round2 grossSalariesF
    payeTax := round2 payeTaxF
    socialSecurity := round2 socialSecurity
    totalDeductions := round2 (payeTaxF + socialSecurity)
    netPayment := round2 payeTaxF
    status := if filingDate ≤ dueDate then .Filed else .Overdue }

/-- `generate_paye_returns`: take the Corporate/Partnership taxpayers and, for
every month in the date range (given as (index, start-day) pairs), emit a
return, except that fraud taxpayers skip a month when its `skipRoll` draw
fires (`random.random() < 0.3`). -/
def generatePayeReturns (taxpayers : List Taxpayer)
    (periods : List (ℕ × ℤ)) (draws : ℕ → ℕ → PayeDraw) (now : ℤ) :
    List PayeReturn :=
  (taxpayers.filter (fun t => t.ttype = .Corporate ∨ t.ttype = .Partnership)).flatMap
    (fun t => periods.filterMap (fun p =>
      let d := draws t.id p.1
      if t.isFraud ∧ d.skipRoll then none
      else some (mkPayeReturn t p.1 p.2 d now)))

/-- A VAT return record (`generate_vat_returns`).  `returnId` encodes
`VAT{yyyy}Q{q}{taxpayer number}` as the pair (period index, taxpayer id). -/
structure VatReturn where
  returnId : ℕ × ℕ
  taxpayerId : ℕ
  periodIdx : ℕ
  quarter : ℕ
  filingDate : Option ℤ
  dueDate : ℤ
  totalSales : ℚ
  taxableSales : ℚ
  exemptSales : ℚ
  exportSales : ℚ
  outputVat : ℚ
  totalPurchases : ℚ
  inputVat : ℚ
  netVatPayable : ℚ
  status : ReturnStatus
deriving DecidableEq

/-- The random draws consumed for one taxpayer-quarter in
`generate_vat_returns`. -/
structure VatDraw where
  skipRoll : Bool
  salesFactor : ℚ
  purchaseFactor : ℚ
  inputVatFactor : ℚ
  fraudOutputFactor : ℚ
  fraudInputFactor : ℚ
  filingOffset : ℤ
deriving DecidableEq

/-- Ranges guaranteed by the Python draws in `generate_vat_returns`:
`skipRoll` is `random.random() < 0.2`; `salesFactor` is `uniform(0.8, 1.2)`;
`purchaseFactor` is `uniform(0.4, 0.7)`; `inputVatFactor` is
`uniform(0.6, 0.9)`; `fraudOutputFactor` is `uniform(0.5, 0.7)`;
`fraudInputFactor` is `uniform(1.2, 1.5)`; `filingOffset` is
`randint(-5, 15)`. -/
def VatDraw.Wf (d : VatDraw) : Prop :=
  8/10 ≤ d.salesFactor ∧ d.salesFactor ≤ 12/10 ∧
  4/10 ≤ d.purchaseFactor ∧ d.purchaseFactor ≤ 7/10 ∧
  6/10 ≤ d.inputVatFactor ∧ d.inputVatFactor ≤ 9/10 ∧
  5/10 ≤ d.fraudOutputFactor ∧ d.fraudOutputFactor ≤ 7/10 ∧
  12/10 ≤ d.fraudInputFactor ∧ d.fraudInputFactor ≤ 15/10 ∧
  -5 ≤ d.filingOffset ∧ d.filingOffset ≤ 15

/-- A quarterly period of the VAT loop: index, quarter number (1..4), and the
due day (`current_date + DateOffset(months=3, days=15)`), which depends on the
calendar and so is carried as data.  `isRetailBoost` is true when the source
boosts sales (`business_sector == 'Retail' and quarter == 4`); the sector
itself is not otherwise modelled. -/
structure VatPeriod where
  idx : ℕ
  quarter : ℕ
  due : ℤ
deriving DecidableEq

/-- A Python `TypeError` (here: comparing `None` with an `int`). -/
inductive PyError
  | typeError
deriving DecidableEq

/-- The guard `t.get('annual_turnover', 0) > 1000000` of `generate_vat_returns`.
The generator always stores the `annual_turnover` key (with value `None` for
Individuals), so `.get` returns the stored value and the default `0` is never
used; comparing `None > 1000000` raises `TypeError` in Python 3. -/
def vatEligible (t : Taxpayer) : Except PyError Bool :=
  match t.annualTurnover with
  | none => .error .typeError
  | some v => .ok (decide (v > 1000000))

/-- The list comprehension
`[t for t in self.taxpayers if t.get('annual_turnover', 0) > 1000000]`:
evaluated left to right, propagating the first `TypeError`. -/
def vatRegistered : List Taxpayer → Except PyError (List Taxpayer)
  | [] => .ok []
  | t :: ts => do
    let b ← vatEligible t
    let rest ← vatRegistered ts
    pure (if b then t :: rest else rest)

/-- Body of the quarter loop of `generate_vat_returns` for one taxpayer and
one quarter (called only with a non-`None` turnover, since the eligibility
filter has already compared it).  Retail sector sales in Q4 get the 1.3
holiday boost; fraud taxpayers get `output_vat` deflated and `input_vat`
inflated before `net_vat_payable` is derived. -/
def mkVatReturn (tp : Taxpayer) (turnover : ℚ) (retailQ4Boost : Bool)
    (p : VatPeriod) (d : VatDraw) (now : ℤ) : VatReturn :=
  let quarterlySales₀ := turnover / 4 * d.salesFactor
  let quarterlySales := if retailQ4Boost ∧ p.quarter = 4
    then quarterlySales₀ * (13/10) else quarterlySales₀
  let taxableSales := quarterlySales * (7/10)
  let exemptSales := quarterlySales * (2/10)
  let exportSales := quarterlySales * (1/10)
  let outputVat := taxableSales * (15/100)
  let purchases := quarterlySales * d.purchaseFactor
  let inputVat := purchases * (15/100) * d.inputVatFactor
  let outputVatF := if tp.isFraud then outputVat * d.fraudOutputFactor else outputVat
  let inputVatF := if tp.isFraud then inputVat * d.fraudInputFactor else inputVat
  let netVat := outputVatF - inputVatF
  let filingDate := p.due - d.filingOffset
  { returnId := (p.idx, tp.id)
    taxpayerId := tp.id
    periodIdx := p.idx
    quarter := p.quarter
    filingDate := if filingDate ≤ now then some filingDate else none
    dueDate := p.due
    totalSales := round2 quarterlySales
    taxableSales := round2 taxableSales
    exemptSales := round2 exemptSales
    exportSales := round2 exportSales
    outputVat := round2 outputVatF
    totalPurchases := round2 purchases
    inputVat := round2 inputVatF
    netVatPayable := round2 netVat
    status := if filingDate ≤ p.due then .Filed else .Overdue }

/-- `generate_vat_returns`: filter the population by the turnover guard
(which raises `TypeError` on a `None` turnover), then for each remaining
taxpayer emit one return per quarter, except quarters a fraud taxpayer skips
(`random.random() < 0.2`).  `retailBoost t` tells whether taxpayer `t` is in
the Retail sector (for the Q4 boost). -/
def generateVatReturns (taxpayers : List Taxpayer) (retailBoost : ℕ → Bool)
    (periods : List VatPeriod) (draws : ℕ → ℕ → VatDraw) (now : ℤ) :
    Except PyError (List VatReturn) := do
  let vts ← vatRegistered taxpayers
  pure (vts.flatMap (fun t =>
    periods.filterMap (fun p =>
      let d := draws t.id p.idx
      if t.isFraud ∧ d.skipRoll then none
      else some (mkVatReturn t (t.annualTurnover.getD 0) (retailBoost t.id) p d now))))

/-- Tax type of a payment record. -/
inductive TaxType
  | PAYE
  | VAT
deriving DecidableEq

/-- A payment record from `generate_payments` (only the columns the claims
mention; `status` is always `'Completed'` in the source). -/
structure Payment where
  taxpayerId : ℕ
  paymentDate : ℤ
  channel : Channel
  taxType : TaxType
  amount : ℚ
  referenceNumber : ℕ × ℕ
deriving DecidableEq

/-- The random draws consumed for one candidate payment in
`generate_payments`: `payRoll` is the `random.random()` value compared with
the payment probability, `delayDays` the delay draw, `channel` the channel
choice. -/
structure PayDraw where
  payRoll : ℚ
  delayDays : ℤ
  channel : Channel
deriving DecidableEq

/-- Payment probability for a PAYE return's taxpayer
(`0.7` if in the fraud set, else `0.95`). -/
def payePaymentProb (isFraud : Bool) : ℚ :=
  if isFraud then 7/10 else 95/100

/-- Payment probability for a VAT return's taxpayer
(`0.6` if in the fraud set, else `0.9`). -/
def vatPaymentProb (isFraud : Bool) : ℚ :=
  if isFraud then 6/10 else 9/10

/-- `generate_payments`: for each PAYE return with `status == 'Filed'` and
`net_payment > 0`, pay with probability `payePaymentProb`; the payment's
`amount` is the return's `net_payment`, its `reference_number` the return's
`return_id`, its date the due date plus the delay draw.  Likewise for VAT
returns with `net_vat_payable > 0`.  `isFraudTp` models membership in
`self.fraud_taxpayers`; `drawsP`/`drawsV` index the per-return draws by
`return_id`. -/
def generatePayments (payes : List PayeReturn) (vats : List VatReturn)
    (isFraudTp : ℕ → Bool) (drawsP drawsV : ℕ × ℕ → PayDraw) : List Payment :=
  (payes.filterMap (fun r =>
    if r.status = .Filed ∧ 0 < r.netPayment then
      let d := drawsP r.returnId
      if d.payRoll < payePaymentProb (isFraudTp r.taxpayerId) then
        some { taxpayerId := r.taxpayerId
               paymentDate := r.dueDate + d.delayDays
               channel := d.channel
               taxType := .PAYE
               amount := r.netPayment
               referenceNumber := r.returnId }
      else none
    else none)) ++
  (vats.filterMap (fun r =>
    if r.status = .Filed ∧ 0 < r.netVatPayable then
      let d := drawsV r.returnId
      if d.payRoll < vatPaymentProb (isFraudTp r.taxpayerId) then
        some { taxpayerId := r.taxpayerId
               paymentDate := r.dueDate + d.delayDays
               channel := d.channel
               taxType := .VAT
               amount := r.netVatPayable
               referenceNumber := r.returnId }
      else none
    else none))

/-! ### ComprehensiveDataGenerator (generate_comprehensive_data.py) -/

/-- `ComprehensiveDataGenerator.generate_taxpayers`: the risk score is
`min(0.95, sum(risk_factors))` where the factors 0.2 / 0.15 / 0.3 / 0.1 are
included for low-compliance sector, business younger than 2 years, the 10%
revenue-inconsistency roll, and cash-heavy sector respectively. -/
def compRiskScore (lowComplianceSector youngBusiness inconsistencyRoll
    cashHeavySector : Bool) : ℚ :=
  min (95/100)
    ((if lowComplianceSector then (2/10 : ℚ) else 0) +
     (if youngBusiness then (15/100 : ℚ) else 0) +
     (if inconsistencyRoll then (3/10 : ℚ) else 0) +
     (if cashHeavySector then (1/10 : ℚ) else 0))

/-- `ComprehensiveDataGenerator.generate_taxpayers`:
`compliance_score = max(0.1, min(0.95, normal(compliance_rate, 0.15) - risk_score/2))`;
`normalDraw` is the (unbounded) normal draw. -/
def compComplianceScore (normalDraw riskScore : ℚ) : ℚ :=
  max (1/10) (min (95/100) (normalDraw - riskScore / 2))

/-- `ComprehensiveDataGenerator._categorize_risk`. -/
def categorizeRisk (riskScore : ℚ) : RiskLabel :=
  if riskScore > 7/10 then .High
  else if riskScore > 4/10 then .Medium
  else .Low

/-- Alert types emitted by the rule-based patterns and the ML step. -/
inductive FraudAlertType
  | SuddenRevenueDrop
  | PaymentChannelAnomaly
  | BelowIndustryAverage
  | MLDetectedHighFraudRisk
  | GeneratorSeeded
deriving DecidableEq

/-- A fraud-alert record (`analytics.fraud_alerts`). -/
structure FraudAlert where
  taxpayerId : ℕ
  alertType : FraudAlertType
  riskScore : ℚ
  status : AlertStatus
deriving DecidableEq

/-- Pandas `rolling(4).mean()` window ending at index `i` of the quarterly
revenue series (the four values at indices `i-3 .. i`; only used at `i ≥ 3`,
where pandas yields a non-NaN value). -/
def window4 (rs : List ℚ) (i : ℕ) : List ℚ :=
  (rs.drop (i - 3)).take 4

/-- The `pct_change` column of the Sudden Revenue Drop rule:
`(amount - rolling_avg) / rolling_avg` at index `i`. -/
def pctChange (rs : List ℚ) (i : ℕ) : ℚ :=
  let avg := (window4 rs i).sum / 4
  (rs.getD i 0 - avg) / avg

/-- The condition under which the Sudden Revenue Drop rule flags index `i`:
pandas' rolling mean is NaN before index 3 (and `NaN < -0.3` is false), so
only indices `i ≥ 3` with `pct_change < -0.3` are flagged. -/
def dropFlagged (rs : List ℚ) (i : ℕ) : Bool :=
  3 ≤ i && decide (pctChange rs i < -(3/10))

/-- Pattern 1 of `ComprehensiveDataGenerator.generate_fraud_patterns`
(Sudden Revenue Drop), per taxpayer: given the taxpayer's quarterly revenue
series (in period order), if it has more than 4 entries, emit for every
flagged index an Open alert with
`risk_score = min(0.95, abs(pct_change))`.  The result pairs each flagged
index with its risk score. -/
def suddenDropAlerts (rs : List ℚ) : List (ℕ × ℚ) :=
  if 4 < rs.length then
    ((List.range rs.length).filter (fun i => dropFlagged rs i)).map
      (fun i => (i, min (95/100) |pctChange rs i|))
  else []

/-- A payment row as consumed by the rule-based patterns (only the columns
the channel rule reads). -/
structure CPayment where
  taxpayerId : ℕ
  channel : Channel
deriving DecidableEq

/-- Number of distinct payment channels a taxpayer used
(the row count of the `(taxpayer_id, payment_channel)` group-by restricted to
that taxpayer). -/
def distinctChannelCount (ps : List CPayment) (tid : ℕ) : ℕ :=
  (((ps.filter (fun p => p.taxpayerId = tid)).map (fun p => p.channel)).dedup).length

/-- Pattern 2 of `ComprehensiveDataGenerator.generate_fraud_patterns`
(Payment Channel Anomaly): for each taxpayer appearing in the payments, if it
used more than 3 distinct channels, emit an Open alert with
`risk_score = min(0.8, channel_count * 0.2)`. -/
def channelAnomalyAlerts (ps : List CPayment) : List FraudAlert :=
  ((ps.map (fun p => p.taxpayerId)).dedup).filterMap (fun tid =>
    let n := distinctChannelCount ps tid
    if 3 < n then
      some { taxpayerId := tid
             alertType := .PaymentChannelAnomaly
             riskScore := min (8/10) ((n : ℚ) * (2/10))
             status := .Open }
    else none)

/-! ### ComprehensiveDataGenerator.load_to_database -/

/-- The destination tables touched by `load_to_database`
(`raw.taxpayers`, `raw.payments`, `analytics.fraud_alerts`); the load step
never inspects row contents, so rows are modelled as naturals. -/
structure DBTables where
  taxpayers : List ℕ
  payments : List ℕ
  alerts : List ℕ
deriving DecidableEq

/-- One `execute_batch` insert loop: rows are inserted in order into the
pending table state; `fail r` models the insert of row `r` raising (e.g. a
constraint violation), which aborts the batch. -/
def insertRows (fail : ℕ → Bool) : List ℕ → List ℕ → Except Unit (List ℕ)
  | acc, [] => .ok acc
  | acc, r :: rs =>
    if fail r then .error () else insertRows fail (acc ++ [r]) rs

/-- `ComprehensiveDataGenerator.load_to_database` under PostgreSQL/psycopg2
transaction semantics: the `TRUNCATE`s and all inserts run in one
transaction on the connection; `conn.commit()` publishes the pending state
only at the end, and on any exception `conn.rollback()` discards the pending
state (`TRUNCATE` included) before the exception is re-raised.  The result is
(raised?, committed table state after the call). -/
def loadToDatabase (prior : DBTables) (data : DBTables) (fail : ℕ → Bool) :
    Bool × DBTables :=
  match insertRows fail [] data.taxpayers with
  | .error _ => (true, prior)
  | .ok tps =>
    match insertRows fail [] data.payments with
    | .error _ => (true, prior)
    | .ok pms =>
      match insertRows fail [] data.alerts with
      | .error _ => (true, prior)
      | .ok als => (false, { taxpayers := tps, payments := pms, alerts := als })

/-! ### ML fraud detection (airflow/dags_disabled/ml_fraud_detection.py) -/

/-- One row of the feature set produced by `prepare_fraud_features`
(only the columns the claims mention: the identifying and label-relevant
ones).  `isFraudLabel` is the training label column `is_fraud`. -/
structure FeatureRow where
  taxpayerId : ℕ
  riskCategory : Option RiskLabel
  complianceScore : ℚ
  isFraudLabel : ℕ
deriving DecidableEq

/-- The warehouse tables the ML pipeline reads. -/
structure WarehouseDB where
  taxpayers : List Taxpayer
  payeReturns : List PayeReturn
  vatReturns : List VatReturn
  alerts : List FraudAlert
deriving DecidableEq

/-- The label expression of the feature SQL:
`CASE WHEN t.risk_category = 'High' AND t.compliance_score < 0.5 THEN 1 ELSE 0 END`. -/
def isFraudLabelOf (t : Taxpayer) : ℕ :=
  if t.riskCategory = some .High ∧ t.complianceScore < 1/2 then 1 else 0

/-- `prepare_fraud_features`: restrict to Corporate/Partnership taxpayers,
keep those with at least one PAYE or VAT return
(`paye_returns_count > 0 OR vat_returns_count > 0`, counts over the joined
return rows), and compute per taxpayer the feature row with the `is_fraud`
label.  The alerts table is not consulted. -/
def prepareFraudFeatures (db : WarehouseDB) : List FeatureRow :=
  (db.taxpayers.filter (fun t =>
      t.ttype = .Corporate ∨ t.ttype = .Partnership)).filterMap (fun t =>
    let payeCount := (db.payeReturns.filter (fun r => r.taxpayerId = t.id)).length
    let vatCount := (db.vatReturns.filter (fun r => r.taxpayerId = t.id)).length
    if 0 < payeCount ∨ 0 < vatCount then
      some { taxpayerId := t.id
             riskCategory := t.riskCategory
             complianceScore := t.complianceScore
             isFraudLabel := isFraudLabelOf t }
    else none)

/-- Modelled from the spec: the spec's notion of "an existing high-risk fraud
alert exists for that taxpayer" (the generator seeds alerts with
`risk_score = uniform(0.7, 0.95)`, so high-risk means risk score at least
0.7).  The feature SQL itself never reads the alerts table; this definition
exists to state the spec's claimed label rule. -/
def hasHighRiskAlert (db : WarehouseDB) (tid : ℕ) : Bool :=
  db.alerts.any (fun a => a.taxpayerId = tid && decide (7/10 ≤ a.riskScore))

/-- `pd.cut(p, bins=[0, 0.3, 0.6, 0.8, 1.0], labels=[Low, Medium, High,
Critical])`: right-closed intervals, the left edge excluded, NaN (`none`)
outside. -/
def fraudRiskBand (p : ℚ) : Option RiskLabel :=
  if p ≤ 0 then none
  else if p ≤ 3/10 then some .Low
  else if p ≤ 6/10 then some .Medium
  else if p ≤ 8/10 then some .High
  else if p ≤ 1 then some .Critical
  else none

/-- The per-taxpayer UPDATE of `score_all_taxpayers`: write
`risk_category = fraud_risk_category` (the `pd.cut` band of the model's fraud
probability) and `compliance_score = max(0.1, min(0.95, 1 - fraud_probability))`. -/
def rescoreTaxpayer (t : Taxpayer) (fraudProbability : ℚ) : Taxpayer :=
  { t with
    riskCategory := fraudRiskBand fraudProbability
    complianceScore := max (1/10) (min (95/100) (1 - fraudProbability)) }

/-- The ML alert inserted by `generate_fraud_alerts` for a high-risk
taxpayer: `risk_score` is the fraud probability, `status` is `'Open'`. -/
def mkMLAlert (tid : ℕ) (p : ℚ) : FraudAlert :=
  { taxpayerId := tid
    alertType := .MLDetectedHighFraudRisk
    riskScore := p
    status := .Open }

/-- `generate_fraud_alerts`: first
`UPDATE analytics.fraud_alerts SET status = 'Closed' WHERE status = 'Open'`
(all rows, all taxpayers); then, for each scored taxpayer with
`fraud_probability > 0.7` whose context query returns a row (the taxpayer
exists in `raw.taxpayers`), insert a new Open ML alert.  Returns the alerts
table after the run, given the scores `(taxpayer_id, fraud_probability)`. -/
def generateFraudAlerts (taxpayers : List Taxpayer) (alerts : List FraudAlert)
    (scores : List (ℕ × ℚ)) : List FraudAlert :=
  (alerts.map (fun a => if a.status = .Open then { a with status := .Closed } else a)) ++
  (scores.filterMap (fun s =>
    if 7/10 < s.2 ∧ taxpayers.any (fun t => t.id = s.1) then
      some (mkMLAlert s.1 s.2)
    else none))

/-! ### Concrete sample data used to evaluate the definitions -/

/-- An Individual taxpayer: `employee_count` and `annual_turnover` are `None`
(the generator only fills them for non-Individual types). -/
def tpIndividual : Taxpayer :=
  { id := 1, tin := some ⟨321, 654321, 7⟩, ttype := .Individual
    employeeCount := none, annualTurnover := none
    riskCategory := some .Low, complianceScore := 7/10, isFraud := false }

/-- A Corporate taxpayer, not in the fraud set. -/
def tpCorp : Taxpayer :=
  { id := 2, tin := some ⟨123, 456789, 5⟩, ttype := .Corporate
    employeeCount := some 10, annualTurnover := some 2000000
    riskCategory := some .Low, complianceScore := 9/10, isFraud := false }

/-- A sample per-period PAYE draw, inside all the documented ranges
(`seasonal = 1` is the month-3 value of the seasonal factor). -/
def pd1 : PayeDraw :=
  { skipRoll := false, empFallback := 10, avgSalary := 10000, seasonal := 1
    payeRate := 1/10, fraudFactor := 1/2, filingOffset := 0 }

/-- A sample per-quarter VAT draw, inside all the documented ranges. -/
def vd1 : VatDraw :=
  { skipRoll := false, salesFactor := 1, purchaseFactor := 1/2
    inputVatFactor := 8/10, fraudOutputFactor := 6/10, fraudInputFactor := 13/10
    filingOffset := 0 }

/-- A sample taxpayer draw, inside all the documented ranges. -/
def tpd7 : TpDraw :=
  { ttype := .Corporate, fraudRoll := false, tinA := 123, tinB := 456789
    tinC := 5, employeeDraw := 10, turnoverDraw := 2000000
    riskChoice := .Low, complianceDraw := 7/10 }

/-- The PAYE return `mkPayeReturn` produces for `tpCorp` in a period starting
at day 0, with all due dates in the past (`now = 1000`). -/
def payeR : PayeReturn := mkPayeReturn tpCorp 0 0 pd1 1000

/-- A sample payment draw whose `payRoll` value always passes the
probability test. -/
def pdr : PayDraw := { payRoll := 0, delayDays := 3, channel := .BankTransfer }

/-- The payment `generate_payments` emits for `payeR` under the draw `pdr`. -/
def pmtP : Payment :=
  { taxpayerId := payeR.taxpayerId, paymentDate := payeR.dueDate + pdr.delayDays
    channel := pdr.channel, taxType := .PAYE, amount := payeR.netPayment
    referenceNumber := payeR.returnId }

/-- A generator-seeded fraud alert with a high risk score (0.9), Open. -/
def seedAlert : FraudAlert :=
  { taxpayerId := 2, alertType := .GeneratorSeeded, riskScore := 9/10
    status := .Open }

/-- A warehouse state where `tpCorp` (risk category Low) has one PAYE return
and one existing high-risk alert. -/
def db5 : WarehouseDB :=
  { taxpayers := [tpCorp], payeReturns := [payeR], vatReturns := []
    alerts := [seedAlert] }

/-- The feature row `prepare_fraud_features` computes for `tpCorp`. -/
def c5row : FeatureRow :=
  { taxpayerId := tpCorp.id, riskCategory := tpCorp.riskCategory
    complianceScore := tpCorp.complianceScore
    isFraudLabel := isFraudLabelOf tpCorp }

/-- The quarterly revenue series of the C6 scenario: 8 quarters at a constant
level `R`, except a single 40% drop (to `0.6 * R`) in period 5 (index 4). -/
def c6series (R : ℚ) : List ℚ :=
  [R, R, R, R, (6/10) * R, R, R, R]

/-- Prior table contents for the load-failure scenario: each table holds one
pre-existing row. -/
def c8prior : DBTables := { taxpayers := [10], payments := [20], alerts := [30] }

/-- Fresh data for the load-failure scenario. -/
def c8data : DBTables := { taxpayers := [1, 2], payments := [3], alerts := [4] }

/-- A failure oracle: the insert of taxpayer row 2 raises. -/
def c8fail : ℕ → Bool := fun r => r = 2

/-- Payments where taxpayer 1 uses 4 distinct channels and taxpayer 2 uses
5 distinct channels. -/
def c9payments : List CPayment :=
  [⟨1, .BankTransfer⟩, ⟨1, .MobileMoney⟩, ⟨1, .Online⟩, ⟨1, .Cash⟩,
   ⟨2, .BankTransfer⟩, ⟨2, .MobileMoney⟩, ⟨2, .Online⟩, ⟨2, .Cash⟩,
   ⟨2, .Cheque⟩]

/-! ### Theorems -/

/-- Core of the status/filing-date relationship shared by the PAYE and VAT
return builders: `status` is derived from the drawn filing day, the stored
field from the drawn filing day and the clock. -/
theorem status_filing_core (filing due now : ℤ) :
    ((∃ fd, (if filing ≤ now then some filing else none) = some fd ∧ fd ≤ due) →
      (if filing ≤ due then ReturnStatus.Filed else .Overdue) = .Filed) ∧
    (due ≤ now →
      ((if filing ≤ due then ReturnStatus.Filed else .Overdue) = .Filed ↔
        ∃ fd, (if filing ≤ now then some filing else none) = some fd ∧ fd ≤ due)) := by
  constructor
  · rintro ⟨fd, hfd, hle⟩
    by_cases h : filing ≤ now
    · simp only [if_pos h, Option.some.injEq] at hfd
      subst hfd
      simp [hle]
    · simp [if_neg h] at hfd
  · intro hdn
    by_cases h : filing ≤ due
    · simp only [if_pos h, if_pos (le_trans h hdn), Option.some.injEq]
      exact ⟨fun _ => ⟨filing, rfl, h⟩, fun _ => trivial⟩
    · simp only [if_neg h]
      constructor
      · intro hcon
        exact absurd hcon (by simp)
      · rintro ⟨fd, hfd, hle⟩
        by_cases hn : filing ≤ now
        · simp only [if_pos hn, Option.some.injEq] at hfd
          subst hfd
          exact absurd hle h
        · simp [if_neg hn] at hfd

/-- C1: the claimed biconditional fails on the code as stated.  With the
in-range draw `pd1` (filing offset 0, so the drawn filing date equals the due
date) and a clock one day before the due date, `generate_paye_returns` emits
a record whose `status` is `'Filed'` while its stored `filing_date` field is
NULL — because `status` is computed from the drawn date, but the stored field
is NULLed when the drawn date lies in the future. -/
theorem c1_filed_with_null_filing_date :
    PayeDraw.Wf pd1 ∧
    (generatePayeReturns [tpCorp] [(0, 0)] (fun _ _ => pd1) 14).map
      (fun r => (r.status, r.filingDate)) = [(.Filed, none)] := by
  constructor
  · refine ⟨by norm_num [pd1], by norm_num [pd1], ?_⟩
    norm_num [PayeDraw.Wf, pd1]
  · decide

/-- C1 (amended): for every PAYE or VAT record, a non-null stored
`filing_date` that is at most the due date implies `status = 'Filed'`; and
for every record whose due date is not after the current time (in particular
whenever the configured date range lies in the past), `status = 'Filed'` holds
iff the stored `filing_date` is non-null and at most the due date.  (The
unamended claim fails only for records whose drawn filing date is still in
the future, as `c1_filed_with_null_filing_date` shows.) -/
theorem c1_status_iff_filed_on_time
    (taxpayers : List Taxpayer) (periods : List (ℕ × ℤ))
    (draws : ℕ → ℕ → PayeDraw) (now : ℤ) (retailBoost : ℕ → Bool)
    (vperiods : List VatPeriod) (vdraws : ℕ → ℕ → VatDraw)
    (vrs : List VatReturn) :
    (∀ r ∈ generatePayeReturns taxpayers periods draws now,
      ((∃ fd, r.filingDate = some fd ∧ fd ≤ r.dueDate) → r.status = .Filed) ∧
      (r.dueDate ≤ now →
        (r.status = .Filed ↔ ∃ fd, r.filingDate = some fd ∧ fd ≤ r.dueDate))) ∧
    (generateVatReturns taxpayers retailBoost vperiods vdraws now = .ok vrs →
      ∀ r ∈ vrs,
      ((∃ fd, r.filingDate = some fd ∧ fd ≤ r.dueDate) → r.status = .Filed) ∧
      (r.dueDate ≤ now →
        (r.status = .Filed ↔ ∃ fd, r.filingDate = some fd ∧ fd ≤ r.dueDate))) := by
  constructor
  · intro r hr
    rw [generatePayeReturns, List.mem_flatMap] at hr
    obtain ⟨t, -, hmem⟩ := hr
    rw [List.mem_filterMap] at hmem
    obtain ⟨p, -, hp⟩ := hmem
    dsimp only at hp
    split at hp
    · exact absurd hp (by simp)
    · rw [Option.some.injEq] at hp
      subst hp
      exact status_filing_core (p.2 + 15 - (draws t.id p.1).filingOffset)
        (p.2 + 15) now
  · intro heq r hr
    rw [generateVatReturns] at heq
    rcases hv : vatRegistered taxpayers with e | vts
    · rw [hv] at heq
      exact absurd heq (by simp [Bind.bind, Except.bind])
    · rw [hv] at heq
      simp only [Bind.bind, Except.bind, pure, Except.pure, Except.ok.injEq] at heq
      subst heq
      rw [List.mem_flatMap] at hr
      obtain ⟨t, -, hmem⟩ := hr
      rw [List.mem_filterMap] at hmem
      obtain ⟨p, -, hp⟩ := hmem
      split at hp
      · exact absurd hp (by simp)
      · rw [Option.some.injEq] at hp
        subst hp
        exact status_filing_core (p.due - (vdraws t.id p.idx).filingOffset)
          p.due now

/-- C1 witness: the amended biconditional evaluated on the concrete record
`payeR` (due date 15, clock 1000). -/
theorem c1_status_iff_filed_on_time_witness :
    payeR ∈ generatePayeReturns [tpCorp] [(0, 0)] (fun _ _ => pd1) 1000 ∧
    payeR.dueDate ≤ 1000 ∧
    (payeR.status = .Filed ↔ ∃ fd, payeR.filingDate = some fd ∧ fd ≤ payeR.dueDate) :=
  ⟨List.mem_singleton.mpr rfl, by decide,
    ((c1_status_iff_filed_on_time [tpCorp] [(0, 0)] (fun _ _ => pd1) 1000
        (fun _ => false) [] (fun _ _ => vd1) []).1 payeR
      (List.mem_singleton.mpr rfl)).2 (by decide)⟩

/-- C4: the claim is right and the code is wrong.  The VAT eligibility guard
`t.get('annual_turnover', 0) > 1000000` reads the stored value (the key is
always present, `None` for Individuals), and comparing `None` with an `int`
raises `TypeError`: on any population containing an Individual taxpayer,
`generate_vat_returns` (and hence `generate_all_data`) raises instead of
completing. -/
theorem c4_vat_returns_raise_on_individual :
    generateVatReturns [tpIndividual] (fun _ => false)
      [{ idx := 0, quarter := 1, due := 105 }] (fun _ _ => vd1) 1000 =
      .error .typeError := rfl

/-- Python `round(x, 2)` is the identity on integers. -/
theorem round2_intCast (n : ℤ) : round2 ((n : ℚ)) = (n : ℚ) := by
  have h : ((n : ℚ) * 100) = (((n * 100 : ℤ)) : ℚ) := by push_cast; ring
  unfold round2 roundHalfEven
  rw [h, Int.floor_intCast]
  rw [if_pos (by norm_num : ((n * 100 : ℤ) : ℚ) - ((n * 100 : ℤ) : ℚ) < 1/2)]
  push_cast
  field_simp

/-- C2: every payment `generate_payments` emits carries exactly the net
liability of the return it references — `net_payment` for PAYE,
`net_vat_payable` for VAT — i.e. the value on which any fraud deflation was
already applied inside the return builder, so the amount always equals the
(possibly deflated) liability of the matching return.  The `Nodup`
hypotheses say return ids are unique within each list, which makes "the
referenced return" well defined. -/
theorem c2_payment_amount_equals_return_liability
    (payes : List PayeReturn) (vats : List VatReturn)
    (isFraudTp : ℕ → Bool) (drawsP drawsV : ℕ × ℕ → PayDraw)
    (hP : (payes.map (fun r => r.returnId)).Nodup)
    (hV : (vats.map (fun r => r.returnId)).Nodup) :
    ∀ p ∈ generatePayments payes vats isFraudTp drawsP drawsV,
      (∀ r ∈ payes, p.taxType = .PAYE → p.referenceNumber = r.returnId →
        p.amount = r.netPayment) ∧
      (∀ r ∈ vats, p.taxType = .VAT → p.referenceNumber = r.returnId →
        p.amount = r.netVatPayable) := by
  intro p hp
  rw [generatePayments, List.mem_append] at hp
  rcases hp with hp | hp
  · rw [List.mem_filterMap] at hp
    obtain ⟨r₀, hr₀, hsome⟩ := hp
    split at hsome
    · dsimp only at hsome
      split at hsome
      · rw [Option.some.injEq] at hsome
        subst hsome
        constructor
        · intro r hr _ href
          have : r₀ = r := List.inj_on_of_nodup_map hP hr₀ hr href
          subst this
          rfl
        · intro r hr htt _
          exact absurd htt (by simp)
      · exact absurd hsome (by simp)
    · exact absurd hsome (by simp)
  · rw [List.mem_filterMap] at hp
    obtain ⟨r₀, hr₀, hsome⟩ := hp
    split at hsome
    · dsimp only at hsome
      split at hsome
      · rw [Option.some.injEq] at hsome
        subst hsome
        constructor
        · intro r hr htt _
          exact absurd htt (by simp)
        · intro r hr _ href
          have : r₀ = r := List.inj_on_of_nodup_map hV hr₀ hr href
          subst this
          rfl
      · exact absurd hsome (by simp)
    · exact absurd hsome (by simp)

/-- C2 witness: the concrete payment emitted for `payeR` carries
`payeR.netPayment`. -/
theorem c2_payment_amount_equals_return_liability_witness :
    ([payeR].map (fun r => r.returnId)).Nodup ∧
    pmtP ∈ generatePayments [payeR] [] (fun _ => false) (fun _ => pdr) (fun _ => pdr) ∧
    pmtP.amount = payeR.netPayment := by
  have hstat : payeR.status = .Filed := by decide
  have hnet : payeR.netPayment = 10000 := by
    have : payeR.netPayment = round2 (((10 : ℕ) : ℚ) * 10000 * 1 * (1/10)) := rfl
    rw [this, show (((10 : ℕ) : ℚ) * 10000 * 1 * (1/10)) = (((10000 : ℤ)) : ℚ) by norm_num,
      round2_intCast]
    norm_num
  have hroll : pdr.payRoll < payePaymentProb false := by
    norm_num [pdr, payePaymentProb]
  have hgen : generatePayments [payeR] [] (fun _ => false) (fun _ => pdr)
      (fun _ => pdr) = [pmtP] := by
    rw [generatePayments, List.filterMap_nil, List.append_nil, List.filterMap_cons,
      List.filterMap_nil]
    rw [if_pos ⟨hstat, by rw [hnet]; norm_num⟩]
    dsimp only
    rw [if_pos hroll]
    rfl
  have hmem : pmtP ∈ generatePayments [payeR] [] (fun _ => false) (fun _ => pdr)
      (fun _ => pdr) := by
    rw [hgen]
    exact List.mem_singleton.mpr rfl
  refine ⟨by decide, hmem, ?_⟩
  exact ((c2_payment_amount_equals_return_liability [payeR] [] (fun _ => false)
      (fun _ => pdr) (fun _ => pdr) (by decide) (by decide) pmtP hmem).1 payeR
    (List.mem_singleton.mpr rfl) rfl rfl)

/-- The sample taxpayer draw is inside all the documented ranges. -/
theorem tpd7_wf : TpDraw.Wf tpd7 := by
  refine ⟨by norm_num [tpd7], by norm_num [tpd7], by norm_num [tpd7],
    by norm_num [tpd7], by norm_num [tpd7], by norm_num [tpd7],
    by norm_num [tpd7], by norm_num [tpd7], by norm_num [tpd7],
    by norm_num [tpd7], Or.inl rfl, ?_⟩
  show (if tpd7.fraudRoll then 2/10 ≤ tpd7.complianceDraw ∧ tpd7.complianceDraw ≤ 5/10
    else 6/10 ≤ tpd7.complianceDraw ∧ tpd7.complianceDraw ≤ 95/100)
  norm_num [tpd7]

/-- C3 (amended): the compliance score stays in [0.1, 0.95] everywhere — for
generated records (both generators) and for rescored records — but the risk
category is only confined to Low/Medium/High at generation time:
`score_all_taxpayers` writes the four-band `pd.cut` label, which also takes
the value `Critical` (see `c3_rescoring_writes_critical`).  Conjuncts: (1)
records of `generate_taxpayers` with in-range draws; (2)(3) the comprehensive
generator's clamped compliance score and 3-way risk categorisation; (4) the
rescoring update: score clamped to [0.1, 0.95], and for any fraud
probability in (0, 1] the written category is one of the four bands. -/
theorem c3_score_and_category_domains :
    (∀ (numTaxpayers : ℕ) (draws : ℕ → TpDraw), (∀ i, (draws i).Wf) →
      ∀ t ∈ generateTaxpayers numTaxpayers draws,
        (1/10 ≤ t.complianceScore ∧ t.complianceScore ≤ 95/100) ∧
        (t.riskCategory = some .Low ∨ t.riskCategory = some .Medium ∨
          t.riskCategory = some .High)) ∧
    (∀ normalDraw riskScore : ℚ,
      1/10 ≤ compComplianceScore normalDraw riskScore ∧
      compComplianceScore normalDraw riskScore ≤ 95/100) ∧
    (∀ riskScore : ℚ,
      categorizeRisk riskScore = .Low ∨ categorizeRisk riskScore = .Medium ∨
        categorizeRisk riskScore = .High) ∧
    (∀ (t : Taxpayer) (p : ℚ),
      (1/10 ≤ (rescoreTaxpayer t p).complianceScore ∧
        (rescoreTaxpayer t p).complianceScore ≤ 95/100) ∧
      (0 < p → p ≤ 1 →
        ∃ b, (rescoreTaxpayer t p).riskCategory = some b)) := by
  refine ⟨?_, ?_, ?_, ?_⟩
  · intro numTaxpayers draws hwf t ht
    rw [generateTaxpayers, List.mem_map] at ht
    obtain ⟨i, -, rfl⟩ := ht
    obtain ⟨-, -, -, -, -, -, -, -, -, -, h11, h12⟩ := hwf i
    constructor
    · show 1/10 ≤ (draws i).complianceDraw ∧ (draws i).complianceDraw ≤ 95/100
      by_cases hf : (draws i).fraudRoll
      · rw [if_pos hf] at h12
        exact ⟨by linarith [h12.1], by linarith [h12.2]⟩
      · rw [if_neg hf] at h12
        exact ⟨by linarith [h12.1], h12.2⟩
    · show some (if (draws i).fraudRoll then RiskLabel.High else (draws i).riskChoice) =
            some RiskLabel.Low ∨
          some (if (draws i).fraudRoll then RiskLabel.High else (draws i).riskChoice) =
            some RiskLabel.Medium ∨
          some (if (draws i).fraudRoll then RiskLabel.High else (draws i).riskChoice) =
            some RiskLabel.High
      by_cases hf : (draws i).fraudRoll
      · rw [if_pos hf]
        exact Or.inr (Or.inr rfl)
      · rw [if_neg hf]
        rcases h11 with h | h | h
        · exact Or.inl (by rw [h])
        · exact Or.inr (Or.inl (by rw [h]))
        · exact Or.inr (Or.inr (by rw [h]))
  · intro normalDraw riskScore
    exact ⟨le_max_left _ _, max_le (by norm_num) (min_le_left _ _)⟩
  · intro riskScore
    unfold categorizeRisk
    split_ifs
    · exact Or.inr (Or.inr rfl)
    · exact Or.inr (Or.inl rfl)
    · exact Or.inl rfl
  · intro t p
    constructor
    · exact ⟨le_max_left _ _, max_le (by norm_num) (min_le_left _ _)⟩
    · intro hp0 hp1
      show ∃ b, fraudRiskBand p = some b
      unfold fraudRiskBand
      rw [if_neg (not_le.mpr hp0)]
      rcases le_or_lt p (3/10) with h | h
      · exact ⟨.Low, by rw [if_pos h]⟩
      · rcases le_or_lt p (6/10) with h2 | h2
        · exact ⟨.Medium, by rw [if_neg (not_le.mpr h), if_pos h2]⟩
        · rcases le_or_lt p (8/10) with h3 | h3
          · exact ⟨.High, by rw [if_neg (not_le.mpr h), if_neg (not_le.mpr h2),
              if_pos h3]⟩
          · exact ⟨.Critical, by rw [if_neg (not_le.mpr h), if_neg (not_le.mpr h2),
              if_neg (not_le.mpr h3), if_pos hp1]⟩

/-- C3: the claim fails on the rescoring path.  A fraud probability of 0.9
makes `score_all_taxpayers` write `risk_category = 'Critical'`, which is
outside the claimed domain {Low, Medium, High}. -/
theorem c3_rescoring_writes_critical :
    (rescoreTaxpayer tpCorp (9/10)).riskCategory = some .Critical ∧
    RiskLabel.Critical ≠ .Low ∧ RiskLabel.Critical ≠ .Medium ∧
    RiskLabel.Critical ≠ .High := by
  refine ⟨?_, by decide, by decide, by decide⟩
  show fraudRiskBand (9/10) = some .Critical
  unfold fraudRiskBand
  norm_num

/-- C5 (amended): the training label produced by `prepare_fraud_features`
equals 1 iff the taxpayer's `risk_category` is High and its
`compliance_score` is below 0.5 — with no disjunct for existing high-risk
alerts: the feature SQL never consults the alerts table (see
`c5_label_ignores_existing_alerts`). -/
theorem c5_label_iff_high_risk_and_low_score (db : WarehouseDB) :
    ∀ f ∈ prepareFraudFeatures db,
      (f.isFraudLabel = 1 ↔
        (f.riskCategory = some .High ∧ f.complianceScore < 1/2)) := by
  intro f hf
  rw [prepareFraudFeatures, List.mem_filterMap] at hf
  obtain ⟨t, -, ht⟩ := hf
  dsimp only at ht
  split at ht
  · rw [Option.some.injEq] at ht
    subst ht
    show isFraudLabelOf t = 1 ↔
      (t.riskCategory = some .High ∧ t.complianceScore < 1/2)
    unfold isFraudLabelOf
    split_ifs with h
    · exact iff_of_true rfl h
    · exact iff_of_false (by simp) h
  · exact absurd ht (by simp)

/-- C5: the claim's "OR an existing high-risk fraud alert exists" clause is
false on the code.  In `db5` the taxpayer has an existing alert with risk
score 0.9, yet its feature-row label is 0 (its risk category is Low), where
the claim demands 1. -/
theorem c5_label_ignores_existing_alerts :
    prepareFraudFeatures db5 = [c5row] ∧
    c5row.isFraudLabel = 0 ∧
    hasHighRiskAlert db5 tpCorp.id = true := by
  refine ⟨rfl, rfl, ?_⟩
  simp only [hasHighRiskAlert, db5, seedAlert, tpCorp, List.any_cons, List.any_nil]
  norm_num

/-- C5 witness: the label biconditional evaluated on the concrete feature
row of `db5`. -/
theorem c5_label_iff_high_risk_and_low_score_witness :
    c5row ∈ prepareFraudFeatures db5 ∧
    (c5row.isFraudLabel = 1 ↔
      (c5row.riskCategory = some .High ∧ c5row.complianceScore < 1/2)) :=
  ⟨List.mem_singleton.mpr rfl,
   c5_label_iff_high_risk_and_low_score db5 c5row (List.mem_singleton.mpr rfl)⟩

/-- When every scored taxpayer exists in `raw.taxpayers` (the context query
finds a row), the insert loop of `generate_fraud_alerts` inserts exactly one
ML alert per score above the 0.7 threshold. -/
theorem filterMap_scores_eq (taxpayers : List Taxpayer) :
    ∀ (scores : List (ℕ × ℚ)),
      (∀ s ∈ scores, taxpayers.any (fun t => t.id = s.1) = true) →
      scores.filterMap (fun s =>
        if 7/10 < s.2 ∧ taxpayers.any (fun t => t.id = s.1) then
          some (mkMLAlert s.1 s.2) else none) =
      (scores.filter (fun s => decide (7/10 < s.2))).map
        (fun s => mkMLAlert s.1 s.2) := by
  intro scores
  induction scores with
  | nil => intro _; rfl
  | cons s ss ih =>
    intro h
    have hs : taxpayers.any (fun t => t.id = s.1) = true :=
      h s (List.mem_cons_self s ss)
    have hss := ih (fun x hx => h x (List.mem_cons_of_mem s hx))
    by_cases hgt : 7/10 < s.2
    · rw [List.filterMap_cons_some (by rw [if_pos ⟨hgt, hs⟩]),
        List.filter_cons_of_pos (by simpa using hgt), List.map_cons, hss]
    · rw [List.filterMap_cons_none (by rw [if_neg (fun hc => hgt hc.1)]),
        List.filter_cons_of_neg (by simpa using hgt), hss]

/-- C10: a run of `generate_fraud_alerts` first closes every Open alert in
the whole table (whatever created it), then inserts Open ML alerts for the
taxpayers scored above 0.7; so afterwards the Open alerts are exactly the
ones this run created.  Hypothesis: every scored taxpayer exists in
`raw.taxpayers` (true in the pipeline, since the scores are computed from
that table); conjunct 2 records that every pre-existing alert survives,
Open ones with their status set to Closed. -/
theorem c10_open_alerts_are_exactly_new_ml_alerts
    (taxpayers : List Taxpayer) (alerts : List FraudAlert)
    (scores : List (ℕ × ℚ))
    (h : ∀ s ∈ scores, taxpayers.any (fun t => t.id = s.1) = true) :
    ((generateFraudAlerts taxpayers alerts scores).filter
        (fun a => a.status = .Open) =
      (scores.filter (fun s => decide (7/10 < s.2))).map
        (fun s => mkMLAlert s.1 s.2)) ∧
    (∀ a ∈ alerts,
      (if a.status = .Open then { a with status := AlertStatus.Closed } else a) ∈
        generateFraudAlerts taxpayers alerts scores) := by
  constructor
  · rw [generateFraudAlerts, List.filter_append]
    have h1 : (alerts.map (fun a =>
        if a.status = .Open then { a with status := AlertStatus.Closed } else a)).filter
          (fun a => a.status = .Open) = [] := by
      rw [List.filter_eq_nil_iff]
      intro a ha
      rw [List.mem_map] at ha
      obtain ⟨b, -, rfl⟩ := ha
      by_cases hb : b.status = .Open
      · simp [hb]
      · simp [hb]
    have h2 : (scores.filterMap (fun s =>
        if 7/10 < s.2 ∧ taxpayers.any (fun t => t.id = s.1) then
          some (mkMLAlert s.1 s.2) else none)).filter
          (fun a => a.status = .Open) =
        scores.filterMap (fun s =>
          if 7/10 < s.2 ∧ taxpayers.any (fun t => t.id = s.1) then
            some (mkMLAlert s.1 s.2) else none) := by
      rw [List.filter_eq_self]
      intro a ha
      rw [List.mem_filterMap] at ha
      obtain ⟨s, -, hsome⟩ := ha
      split at hsome
      · rw [Option.some.injEq] at hsome
        subst hsome
        simp [mkMLAlert]
      · exact absurd hsome (by simp)
    rw [h1, h2, List.nil_append, filterMap_scores_eq taxpayers scores h]
  · intro a ha
    rw [generateFraudAlerts, List.mem_append]
    exact Or.inl (List.mem_map_of_mem _ ha)

/-- C10 witness: a run over one seeded Open alert and one score of 0.9 for
the existing taxpayer `tpCorp`. -/
theorem c10_open_alerts_are_exactly_new_ml_alerts_witness :
    (∀ s ∈ [((2 : ℕ), (9/10 : ℚ))],
      [tpCorp].any (fun t => t.id = s.1) = true) ∧
    (generateFraudAlerts [tpCorp] [seedAlert] [(2, 9/10)]).filter
        (fun a => a.status = .Open) =
      ([((2 : ℕ), (9/10 : ℚ))].filter (fun s => decide (7/10 < s.2))).map
        (fun s => mkMLAlert s.1 s.2) :=
  ⟨fun s hs => by
      rw [List.mem_singleton] at hs
      subst hs
      rfl,
   (c10_open_alerts_are_exactly_new_ml_alerts [tpCorp] [seedAlert] [(2, 9/10)]
      (fun s hs => by
        rw [List.mem_singleton] at hs
        subst hs
        rfl)).1⟩

/-- C7 (amended): every generated taxpayer's TIN is non-null, but generation
does not enforce uniqueness — the TIN is three independent random draws with
no bookkeeping, so distinct taxpayers can share a TIN under some draw
sequences (see `c7_duplicate_tins_possible`); duplicates are only detected
downstream, where `check_data_quality` fails exactly when some TIN is null or
some TIN value occurs on two rows. -/
theorem c7_tin_nonnull_and_duplicates_detected
    (numTaxpayers : ℕ) (draws : ℕ → TpDraw) (rows : List Taxpayer) :
    (∀ t ∈ generateTaxpayers numTaxpayers draws, t.tin ≠ none) ∧
    (checkDataQuality rows = .ok () ↔
      ((∀ r ∈ rows, r.tin ≠ none) ∧ (rows.map (fun r => r.tin)).Nodup)) := by
  constructor
  · intro t ht
    rw [generateTaxpayers, List.mem_map] at ht
    obtain ⟨i, -, rfl⟩ := ht
    simp [mkSyntheticTaxpayer]
  · have hnn_iff : (rows.any (fun r => r.tin = none)) = false ↔
        (∀ r ∈ rows, r.tin ≠ none) := by
      rw [List.any_eq_false]
      constructor
      · intro hf r hr
        simpa using hf r hr
      · intro hf r hr
        simpa using hf r hr
    unfold checkDataQuality
    rcases hany : rows.any (fun r => r.tin = none) with _ | _
    · rw [if_neg (by simp [hany])]
      by_cases hnd : (rows.map (fun r => r.tin)).Nodup
      · rw [if_pos hnd]
        exact iff_of_true rfl ⟨hnn_iff.mp hany, hnd⟩
      · rw [if_neg hnd]
        exact iff_of_false (by simp) (fun hc => hnd hc.2)
    · rw [if_pos (by simp [hany])]
      refine iff_of_false (by simp) ?_
      rintro ⟨hnn, -⟩
      exact absurd (hnn_iff.mpr hnn) (by simp [hany])

/-- C7: uniqueness fails on the code as stated.  Under the constant (in-range)
draw sequence `tpd7`, two distinct generated taxpayers carry the same TIN. -/
theorem c7_duplicate_tins_possible :
    TpDraw.Wf tpd7 ∧
    ((generateTaxpayers 2 (fun _ => tpd7)).map (fun t => t.id)).Nodup ∧
    ¬ ((generateTaxpayers 2 (fun _ => tpd7)).map (fun t => t.tin)).Nodup :=
  ⟨tpd7_wf, by decide, by decide⟩

/-- C7 witness: the amended statement evaluated at a singleton population and
a singleton quality-check input. -/
theorem c7_tin_nonnull_and_duplicates_detected_witness :
    (mkSyntheticTaxpayer 0 tpd7) ∈ generateTaxpayers 1 (fun _ => tpd7) ∧
    (mkSyntheticTaxpayer 0 tpd7).tin ≠ none ∧
    (checkDataQuality [tpCorp] = .ok () ↔
      ((∀ r ∈ [tpCorp], r.tin ≠ none) ∧ ([tpCorp].map (fun r => r.tin)).Nodup)) :=
  ⟨List.mem_singleton.mpr rfl,
   (c7_tin_nonnull_and_duplicates_detected 1 (fun _ => tpd7) [tpCorp]).1
     (mkSyntheticTaxpayer 0 tpd7) (List.mem_singleton.mpr rfl),
   (c7_tin_nonnull_and_duplicates_detected 1 (fun _ => tpd7) [tpCorp]).2⟩

/-- Each `execute_batch` loop inserts its rows in order when none of them
fails. -/
theorem insertRows_ok (fail : ℕ → Bool) :
    ∀ (rs acc out : List ℕ), insertRows fail acc rs = .ok out → out = acc ++ rs := by
  intro rs
  induction rs with
  | nil =>
    intro acc out h
    rw [insertRows] at h
    cases h
    simp
  | cons r rs ih =>
    intro acc out h
    rw [insertRows] at h
    split at h
    · exact absurd h (by simp)
    · rw [ih (acc ++ [r]) out h]
      simp

/-- C8 (amended): `load_to_database` runs the `TRUNCATE`s and all inserts in
a single transaction and calls `conn.rollback()` on any exception before
re-raising; so a failed bulk load leaves the destination tables exactly as
they were before the call — the prior data is restored, not lost.  Only a
fully successful run replaces the tables with the new data. -/
theorem c8_failed_load_restores_prior_state
    (prior data : DBTables) (fail : ℕ → Bool) :
    ((loadToDatabase prior data fail).1 = true →
      (loadToDatabase prior data fail).2 = prior) ∧
    ((loadToDatabase prior data fail).1 = false →
      (loadToDatabase prior data fail).2 =
        { taxpayers := data.taxpayers, payments := data.payments,
          alerts := data.alerts }) := by
  rcases h1 : insertRows fail [] data.taxpayers with e1 | tps
  · rw [loadToDatabase, h1]
    exact ⟨fun _ => rfl, fun hc => absurd hc (by simp)⟩
  · rcases h2 : insertRows fail [] data.payments with e2 | pms
    · rw [loadToDatabase, h1, h2]
      exact ⟨fun _ => rfl, fun hc => absurd hc (by simp)⟩
    · rcases h3 : insertRows fail [] data.alerts with e3 | als
      · rw [loadToDatabase, h1, h2, h3]
        exact ⟨fun _ => rfl, fun hc => absurd hc (by simp)⟩
      · rw [loadToDatabase, h1, h2, h3]
        refine ⟨fun hc => absurd hc (by simp), fun _ => ?_⟩
        have e1 := insertRows_ok fail data.taxpayers [] tps h1
        have e2 := insertRows_ok fail data.payments [] pms h2
        have e3 := insertRows_ok fail data.alerts [] als h3
        rw [List.nil_append] at e1 e2 e3
        rw [e1, e2, e3]

/-- C8: the claim fails on the code.  With a failing insert (`c8fail` makes
taxpayer row 2 raise) the call raises, and the committed state equals the
prior state — whose tables are non-empty — not a truncated/empty state. -/
theorem c8_failed_load_leaves_prior_data :
    loadToDatabase c8prior c8data c8fail = (true, c8prior) ∧
    c8prior.taxpayers ≠ [] ∧ c8prior.payments ≠ [] ∧ c8prior.alerts ≠ [] := by
  decide

/-- C8 witness: the rollback equation evaluated at the concrete failing
load. -/
theorem c8_failed_load_restores_prior_state_witness :
    (loadToDatabase c8prior c8data c8fail).1 = true ∧
    (loadToDatabase c8prior c8data c8fail).2 = c8prior :=
  ⟨by decide,
   (c8_failed_load_restores_prior_state c8prior c8data c8fail).1 (by decide)⟩

/-- C9 (amended): the channel-diversity rule flags a taxpayer iff its
distinct-channel count exceeds 3, but the risk score is
`min(0.8, 0.2 * count)`, which is the constant 0.8 on the whole flagged
range (count ≥ 4 forces `0.2 * count ≥ 0.8`) — not strictly increasing with
the channel count (see `c9_risk_score_constant_on_flagged_range`). -/
theorem c9_channel_rule_threshold_and_capped_score (ps : List CPayment) :
    (∀ a ∈ channelAnomalyAlerts ps,
      3 < distinctChannelCount ps a.taxpayerId ∧ a.riskScore = 4/5 ∧
      a.status = .Open ∧ a.alertType = .PaymentChannelAnomaly) ∧
    (∀ tid ∈ (ps.map (fun p => p.taxpayerId)).dedup,
      3 < distinctChannelCount ps tid →
      ∃ a ∈ channelAnomalyAlerts ps, a.taxpayerId = tid) := by
  constructor
  · intro a ha
    rw [channelAnomalyAlerts, List.mem_filterMap] at ha
    obtain ⟨tid, -, hsome⟩ := ha
    dsimp only at hsome
    split at hsome
    · rename_i hgt
      rw [Option.some.injEq] at hsome
      subst hsome
      refine ⟨hgt, ?_, rfl, rfl⟩
      have h4 : (4 : ℚ) ≤ (distinctChannelCount ps tid : ℚ) := by
        exact_mod_cast hgt
      show min (8/10 : ℚ) ((distinctChannelCount ps tid : ℚ) * (2/10)) = 4/5
      rw [min_eq_left (by linarith)]
      norm_num
    · exact absurd hsome (by simp)
  · intro tid htid hgt
    refine ⟨FraudAlert.mk tid .PaymentChannelAnomaly
        (min (8/10) ((distinctChannelCount ps tid : ℚ) * (2/10))) .Open, ?_, rfl⟩
    rw [channelAnomalyAlerts, List.mem_filterMap]
    exact ⟨tid, htid, by dsimp only; rw [if_pos hgt]⟩

/-- C9: the "strictly increasing risk score" part of the claim fails on the
code — taxpayer 1 uses 4 distinct channels and taxpayer 2 uses 5, both are
flagged, and both alerts carry the same risk score 0.8. -/
theorem c9_risk_score_constant_on_flagged_range :
    distinctChannelCount c9payments 1 = 4 ∧
    distinctChannelCount c9payments 2 = 5 ∧
    (channelAnomalyAlerts c9payments).map
        (fun a => (a.taxpayerId, a.riskScore)) = [(1, 4/5), (2, 4/5)] := by
  have h1 : distinctChannelCount c9payments 1 = 4 := by decide
  have h2 : distinctChannelCount c9payments 2 = 5 := by decide
  refine ⟨h1, h2, ?_⟩
  have hd : (c9payments.map (fun p => p.taxpayerId)).dedup = [1, 2] := by decide
  rw [channelAnomalyAlerts, hd]
  have hf1 : (if 3 < distinctChannelCount c9payments 1 then
        some (FraudAlert.mk 1 .PaymentChannelAnomaly
          (min (8/10) ((distinctChannelCount c9payments 1 : ℚ) * (2/10))) .Open)
      else none) =
      some (FraudAlert.mk 1 .PaymentChannelAnomaly (4/5) .Open) := by
    rw [if_pos (by decide), h1]
    norm_num [min_def]
  have hf2 : (if 3 < distinctChannelCount c9payments 2 then
        some (FraudAlert.mk 2 .PaymentChannelAnomaly
          (min (8/10) ((distinctChannelCount c9payments 2 : ℚ) * (2/10))) .Open)
      else none) =
      some (FraudAlert.mk 2 .PaymentChannelAnomaly (4/5) .Open) := by
    rw [if_pos (by decide), h2]
    norm_num [min_def]
  dsimp only
  simp only [List.filterMap_cons, List.filterMap_nil]
  rw [hf1, hf2]
  rfl

/-- C9 witness: the threshold rule evaluated at the concrete payments
(taxpayer 2 uses 5 > 3 distinct channels and is flagged). -/
theorem c9_channel_rule_threshold_and_capped_score_witness :
    2 ∈ (c9payments.map (fun p => p.taxpayerId)).dedup ∧
    3 < distinctChannelCount c9payments 2 ∧
    ∃ a ∈ channelAnomalyAlerts c9payments, a.taxpayerId = 2 :=
  ⟨by decide, by decide,
   (c9_channel_rule_threshold_and_capped_score c9payments).2 2 (by decide)
     (by decide)⟩

/-- C6: on an 8-quarter series that is constant at `R > 0` except for a
single 40% drop in period 5 (index 4), the Sudden Revenue Drop rule flags
exactly index 4, with risk score `min(0.95, 1/3) = 1/3` (the drop relative
to the 4-quarter rolling average that includes the dropped quarter is
33.3%); and on every series, every emitted alert's risk score equals
`min(0.95, |pct_change|)` at its flagged index. -/
theorem c6_sudden_drop_flags_exactly_period_five (R : ℚ) (hR : 0 < R) :
    suddenDropAlerts (c6series R) = [(4, 1/3)] ∧
    (∀ (rs : List ℚ), ∀ a ∈ suddenDropAlerts rs,
      a.2 = min (95/100) |pctChange rs a.1|) := by
  have hR' : R ≠ 0 := ne_of_gt hR
  constructor
  · have h3 : pctChange (c6series R) 3 = 0 := by
      show (R - (R + (R + (R + (R + 0)))) / 4) / ((R + (R + (R + (R + 0)))) / 4) = 0
      rw [show (R + (R + (R + (R + 0)))) / 4 = R by ring]
      simp
    have h4 : pctChange (c6series R) 4 = -(1/3) := by
      show ((6/10) * R - (R + (R + (R + ((6/10) * R + 0)))) / 4) /
          ((R + (R + (R + ((6/10) * R + 0)))) / 4) = -(1/3)
      rw [show (R + (R + (R + ((6/10) * R + 0)))) / 4 = (9/10) * R by ring]
      rw [div_eq_iff (by positivity)]
      ring
    have h5 : pctChange (c6series R) 5 = 1/9 := by
      show (R - (R + (R + ((6/10) * R + (R + 0)))) / 4) /
          ((R + (R + ((6/10) * R + (R + 0)))) / 4) = 1/9
      rw [show (R + (R + ((6/10) * R + (R + 0)))) / 4 = (9/10) * R by ring]
      rw [div_eq_iff (by positivity)]
      ring
    have h6 : pctChange (c6series R) 6 = 1/9 := by
      show (R - (R + ((6/10) * R + (R + (R + 0)))) / 4) /
          ((R + ((6/10) * R + (R + (R + 0)))) / 4) = 1/9
      rw [show (R + ((6/10) * R + (R + (R + 0)))) / 4 = (9/10) * R by ring]
      rw [div_eq_iff (by positivity)]
      ring
    have h7 : pctChange (c6series R) 7 = 1/9 := by
      show (R - ((6/10) * R + (R + (R + (R + 0)))) / 4) /
          (((6/10) * R + (R + (R + (R + 0)))) / 4) = 1/9
      rw [show ((6/10) * R + (R + (R + (R + 0)))) / 4 = (9/10) * R by ring]
      rw [div_eq_iff (by positivity)]
      ring
    have hf0 : dropFlagged (c6series R) 0 = false := rfl
    have hf1 : dropFlagged (c6series R) 1 = false := rfl
    have hf2 : dropFlagged (c6series R) 2 = false := rfl
    have hf3 : dropFlagged (c6series R) 3 = false := by
      unfold dropFlagged
      rw [h3, show (decide (3 ≤ 3)) = true from rfl, Bool.true_and,
        decide_eq_false_iff_not]
      norm_num
    have hf4 : dropFlagged (c6series R) 4 = true := by
      unfold dropFlagged
      rw [h4, show (decide (3 ≤ 4)) = true from rfl, Bool.true_and,
        decide_eq_true_eq]
      norm_num
    have hf5 : dropFlagged (c6series R) 5 = false := by
      unfold dropFlagged
      rw [h5, show (decide (3 ≤ 5)) = true from rfl, Bool.true_and,
        decide_eq_false_iff_not]
      norm_num
    have hf6 : dropFlagged (c6series R) 6 = false := by
      unfold dropFlagged
      rw [h6, show (decide (3 ≤ 6)) = true from rfl, Bool.true_and,
        decide_eq_false_iff_not]
      norm_num
    have hf7 : dropFlagged (c6series R) 7 = false := by
      unfold dropFlagged
      rw [h7, show (decide (3 ≤ 7)) = true from rfl, Bool.true_and,
        decide_eq_false_iff_not]
      norm_num
    have hlen : (c6series R).length = 8 := rfl
    rw [suddenDropAlerts, hlen]
    rw [if_pos (by norm_num : (4:ℕ) < 8)]
    rw [show List.range 8 = [0, 1, 2, 3, 4, 5, 6, 7] from by decide]
    rw [List.filter_cons_of_neg (by simp [hf0]),
      List.filter_cons_of_neg (by simp [hf1]),
      List.filter_cons_of_neg (by simp [hf2]),
      List.filter_cons_of_neg (by simp [hf3]),
      List.filter_cons_of_pos (by simp [hf4]),
      List.filter_cons_of_neg (by simp [hf5]),
      List.filter_cons_of_neg (by simp [hf6]),
      List.filter_cons_of_neg (by simp [hf7]),
      List.filter_nil]
    rw [List.map_cons, List.map_nil, h4, abs_neg,
      abs_of_pos (by norm_num : (0:ℚ) < 1/3),
      min_eq_right (by norm_num : (1/3 : ℚ) ≤ 95/100)]
  · intro rs a ha
    rw [suddenDropAlerts] at ha
    split at ha
    · rw [List.mem_map] at ha
      obtain ⟨i, -, rfl⟩ := ha
      rfl
    · exact absurd ha (by simp)

/-- C6 witness: the rule evaluated on the concrete series with `R = 100`. -/
theorem c6_sudden_drop_flags_exactly_period_five_witness :
    (0 : ℚ) < 100 ∧ suddenDropAlerts (c6series 100) = [(4, 1/3)] :=
  ⟨by norm_num, (c6_sudden_drop_flags_exactly_period_five 100 (by norm_num)).1⟩

/-- C3 witness: the domain bounds evaluated at concrete inputs (a generated
taxpayer from the in-range draw `tpd7`, and a rescoring with probability
0.9). -/
theorem c3_score_and_category_domains_witness :
    (1/10 ≤ (mkSyntheticTaxpayer 0 tpd7).complianceScore ∧
      (mkSyntheticTaxpayer 0 tpd7).complianceScore ≤ 95/100) ∧
    (∃ b, (rescoreTaxpayer tpCorp (9/10)).riskCategory = some b) :=
  ⟨(c3_score_and_category_domains.1 1 (fun _ => tpd7) (fun _ => tpd7_wf)
      (mkSyntheticTaxpayer 0 tpd7) (List.mem_singleton.mpr rfl)).1,
   ((c3_score_and_category_domains.2.2.2 tpCorp (9/10)).2 (by norm_num)
      (by norm_num))⟩

end GTA



